import Mathlib

/-!
Shallow embedding of the school-management backend (`backend/server.py`)
and proofs of its specified properties.

Modelling conventions:
* The MongoDB collections (`db.users`, `db.students`, `db.attendance`,
  `db.grades`, `db.announcements`) are Lean lists of document structures;
  `find_one` is `List.find?` (Mongo natural order = insertion order),
  `insert_one` appends, `count_documents` is `List.countP`,
  `delete_one` removes the first match, `update_one` with `$set`
  rewrites the fields of the first match.
* Timestamps are integers (Unix seconds, UTC); `timedelta(hours=24)`
  is `86400`.
* A JWT is modelled abstractly: a token either carries a payload signed
  with the server secret, or it is malformed / wrongly signed
  (`Token.badToken`).  `jwt.decode` checks the signature and then the
  `exp` claim (PyJWT semantics: expired iff `exp < now`).
* `import jwt` is PyJWT, which defines no `JWTError` attribute.  In
  `get_current_user`, whenever Python evaluates the
  `except jwt.JWTError:` header — for a non-expiry decode failure, or
  for an `HTTPException` raised inside the `try` block, neither of
  which matches `except jwt.ExpiredSignatureError` — that evaluation
  raises `AttributeError`, the request dies unhandled and the framework
  answers 500.  Those paths are therefore modelled as the error
  `⟨500, "Internal Server Error"⟩`; only the expired path and the
  success path behave as their `raise`/`return` statements read.
* `bcrypt` hashing/verification is kept abstract: operations that use it
  take the `hash` / `verify` function as an explicit parameter.
* An `HTTPException(status_code, detail)` is the `Err` structure; a
  handler returns `Except Err α`.  Handlers that can mutate a collection
  return the result paired with the collection's new state.
-/

namespace School

/-- `HTTPException(status_code=…, detail=…)`. -/
structure Err where
  status_code : Nat
  detail : String
deriving DecidableEq, Repr

/-- A stored user document (`db.users`): the `User` model plus the
`password` (bcrypt hash) field added by `register`. -/
structure UserDoc where
  id : String
  username : String
  role : String
  full_name : String
  email : Option String
  created_at : Int
  password : String
deriving DecidableEq, Repr

/-- The `User` response model: no password field. -/
structure User where
  id : String
  username : String
  role : String
  full_name : String
  email : Option String
  created_at : Int
deriving DecidableEq, Repr

/-- `User(**user)` with `extra="ignore"`: the stored document minus the
password hash. -/
def UserDoc.toUser (u : UserDoc) : User :=
  { id := u.id, username := u.username, role := u.role,
    full_name := u.full_name, email := u.email, created_at := u.created_at }

/-- The `UserCreate` request model. -/
structure UserCreate where
  username : String
  password : String
  role : String
  full_name : String
  email : Option String
deriving DecidableEq, Repr

/-- `POST /auth/register` (`register`, server.py lines 172-189).
`hashPassword` stands for the bcrypt `hash_password`; `genId` and `now`
stand for the generated `uuid4` and `datetime.now(timezone.utc)` used by
the `User` model's default factories.  Returns the response together
with the new state of `db.users`. -/
def register (hashPassword : String → String) (genId : String) (now : Int)
    (users : List UserDoc) (user_data : UserCreate) :
    Except Err User × List UserDoc :=
  match users.find? (fun x => x.username == user_data.username) with
  | some _ => (.error ⟨400, "Username already exists"⟩, users)
  | none =>
    let doc : UserDoc :=
      { id := genId, username := user_data.username, role := user_data.role,
        full_name := user_data.full_name, email := user_data.email,
        created_at := now, password := hashPassword user_data.password }
    (.ok doc.toUser, users ++ [doc])

/-! ## Token service (`create_access_token`, `jwt.encode` / `jwt.decode`) -/

/-- A bearer token.  `payload sub role exp` is a token correctly signed
with the server's `JWT_SECRET`, carrying the claims written by
`create_access_token` (`sub` may be absent if the caller supplied a
`data` dict without it); `badToken` is any string that is malformed or
not signed with the server's secret. -/
inductive Token where
  | payload (sub : Option String) (role : String) (exp : Int)
  | badToken
deriving DecidableEq, Repr

/-- `JWT_EXPIRATION_HOURS = 24`, as seconds. -/
def jwtExpirationSeconds : Int := 24 * 3600

/-- `create_access_token(data={"sub": sub, "role": role})`
(server.py lines 44-49): attaches `exp = now + 24h` and signs. -/
def create_access_token (sub role : String) (now : Int) : Token :=
  .payload (some sub) role (now + jwtExpirationSeconds)

/-- The two decode failure kinds of PyJWT's `jwt.decode`:
`jwt.ExpiredSignatureError`, and any other `InvalidTokenError`
(malformed token, bad signature, …). -/
inductive JwtError where
  | expiredSignature
  | otherJwtError
deriving DecidableEq, Repr

/-- `jwt.decode(token, JWT_SECRET, algorithms=[JWT_ALGORITHM])`:
rejects a malformed or wrongly-signed token, then rejects an expired
one (PyJWT: expired iff `exp < now`), else returns the claims. -/
def jwtDecode (t : Token) (now : Int) :
    Except JwtError (Option String × String × Int) :=
  match t with
  | .badToken => .error .otherJwtError
  | .payload sub role exp =>
    if exp < now then .error .expiredSignature else .ok (sub, role, exp)

/-- `get_current_user` (server.py lines 51-65): decode the bearer token,
read the `sub` claim, re-fetch the user by id.  An expired token is
caught by `except jwt.ExpiredSignatureError` and answered
401 "Token has expired".  Every other exceptional path reaches the
`except jwt.JWTError:` header, and since PyJWT (`import jwt`) has no
`JWTError` attribute, evaluating that header raises `AttributeError`:
the request surfaces as an unhandled 500.  This hits (a) any
non-expiry decode failure (malformed token, bad signature), and
(b) the `HTTPException`s raised inside the `try` block — missing `sub`
claim, and user id no longer stored — whose 401 details
("Invalid authentication credentials", "User not found") are therefore
dead code and never reach the client. -/
def get_current_user (t : Token) (now : Int) (users : List UserDoc) :
    Except Err UserDoc :=
  match jwtDecode t now with
  | .error .expiredSignature => .error ⟨401, "Token has expired"⟩
  | .error .otherJwtError => .error ⟨500, "Internal Server Error"⟩
  | .ok (sub, _, _) =>
    match sub with
    | none => .error ⟨500, "Internal Server Error"⟩
    | some user_id =>
      match users.find? (fun u => u.id == user_id) with
      | none => .error ⟨500, "Internal Server Error"⟩
      | some user => .ok user

/-! ## Login -/

/-- The `UserLogin` request model. -/
structure UserLogin where
  username : String
  password : String
deriving DecidableEq, Repr

/-- The `LoginResponse` model. -/
structure LoginResponse where
  access_token : Token
  token_type : String
  user : User
deriving DecidableEq, Repr

/-- `POST /auth/login` (`login`, server.py lines 191-204).
`verifyPassword` stands for bcrypt `verify_password`; `now` is the
issue time used by `create_access_token`. -/
def login (verifyPassword : String → String → Bool) (now : Int)
    (users : List UserDoc) (login_data : UserLogin) :
    Except Err LoginResponse :=
  match users.find? (fun u => u.username == login_data.username) with
  | none => .error ⟨401, "Invalid username or password"⟩
  | some user =>
    if verifyPassword login_data.password user.password then
      .ok { access_token := create_access_token user.id user.role now,
            token_type := "bearer", user := user.toUser }
    else
      .error ⟨401, "Invalid username or password"⟩

/-- The condition under which `login` takes one of its two failure
paths: no stored user has the requested username, or one does but the
password does not verify against its stored hash. -/
def loginFailCond (verifyPassword : String → String → Bool)
    (users : List UserDoc) (login_data : UserLogin) : Bool :=
  match users.find? (fun u => u.username == login_data.username) with
  | none => true
  | some user => !(verifyPassword login_data.password user.password)

/-! ## Student routes -/

/-- A stored student document (`db.students`), the `Student` model. -/
structure StudentDoc where
  id : String
  user_id : String
  full_name : String
  roll_number : String
  class_name : String
  «section» : String
  parent_id : Option String
  date_of_birth : Option String
  address : Option String
  phone : Option String
  created_at : Int
deriving DecidableEq, Repr

/-- The `StudentCreate` request model: exactly eight input fields. -/
structure StudentCreate where
  full_name : String
  roll_number : String
  class_name : String
  «section» : String
  parent_id : Option String
  date_of_birth : Option String
  address : Option String
  phone : Option String
deriving DecidableEq, Repr

/-- `POST /students` (`create_student`, server.py lines 211-221):
admin/teacher only; the stored document gets `user_id` from the
authenticated caller, a generated `id` and `created_at`. -/
def create_student (student_data : StudentCreate) (current_user : UserDoc)
    (genId : String) (now : Int) (students : List StudentDoc) :
    Except Err StudentDoc × List StudentDoc :=
  if current_user.role == "admin" || current_user.role == "teacher" then
    let student_obj : StudentDoc :=
      { id := genId, user_id := current_user.id,
        full_name := student_data.full_name,
        roll_number := student_data.roll_number,
        class_name := student_data.class_name,
        «section» := student_data.«section»,
        parent_id := student_data.parent_id,
        date_of_birth := student_data.date_of_birth,
        address := student_data.address, phone := student_data.phone,
        created_at := now }
    (.ok student_obj, students ++ [student_obj])
  else
    (.error ⟨403, "Not authorized"⟩, students)

/-- `GET /students/{student_id}` (`get_student`, server.py
lines 231-238): `find_one({"id": student_id})`, 404 when absent. -/
def get_student (student_id : String) (students : List StudentDoc) :
    Except Err StudentDoc :=
  match students.find? (fun s => s.id == student_id) with
  | none => .error ⟨404, "Student not found"⟩
  | some student => .ok student

/-- `update_one({"id": …}, {"$set": student_data.model_dump()})`:
overwrite exactly the eight `StudentCreate` fields of a document. -/
def setStudentFields (student_data : StudentCreate) (s : StudentDoc) :
    StudentDoc :=
  { s with full_name := student_data.full_name,
           roll_number := student_data.roll_number,
           class_name := student_data.class_name,
           «section» := student_data.«section»,
           parent_id := student_data.parent_id,
           date_of_birth := student_data.date_of_birth,
           address := student_data.address,
           phone := student_data.phone }

/-- Apply `f` to the first element satisfying `p` (Mongo
`update_one`). -/
def updateFirst (p : StudentDoc → Bool) (f : StudentDoc → StudentDoc) :
    List StudentDoc → List StudentDoc
  | [] => []
  | x :: xs => if p x then f x :: xs else x :: updateFirst p f xs

/-- `PUT /students/{student_id}` (`update_student`, server.py
lines 240-255): admin/teacher only; 404 when the id is absent; `$set`s
the eight input fields on the matching document and returns the
re-fetched document.  (The re-fetch coming back empty is impossible;
that dead branch is modelled as a 500.) -/
def update_student (student_id : String) (student_data : StudentCreate)
    (current_user : UserDoc) (students : List StudentDoc) :
    Except Err StudentDoc × List StudentDoc :=
  if current_user.role == "admin" || current_user.role == "teacher" then
    match students.find? (fun s => s.id == student_id) with
    | none => (.error ⟨404, "Student not found"⟩, students)
    | some _ =>
      let students' :=
        updateFirst (fun s => s.id == student_id)
          (setStudentFields student_data) students
      match students'.find? (fun s => s.id == student_id) with
      | none => (.error ⟨500, "Internal Server Error"⟩, students')
      | some updated_student => (.ok updated_student, students')
  else
    (.error ⟨403, "Not authorized"⟩, students)

/-- Mongo `delete_one`: remove the first match, returning the new list
and `deleted_count`. -/
def deleteFirst (p : StudentDoc → Bool) :
    List StudentDoc → List StudentDoc × Nat
  | [] => ([], 0)
  | x :: xs =>
    if p x then (xs, 1)
    else
      let r := deleteFirst p xs
      (x :: r.1, r.2)

/-- `DELETE /students/{student_id}` (`delete_student`, server.py
lines 257-265): admin only; 404 when `deleted_count == 0`. -/
def delete_student (student_id : String) (current_user : UserDoc)
    (students : List StudentDoc) : Except Err String × List StudentDoc :=
  if current_user.role != "admin" then
    (.error ⟨403, "Not authorized"⟩, students)
  else
    let r := deleteFirst (fun s => s.id == student_id) students
    if r.2 == 0 then (.error ⟨404, "Student not found"⟩, r.1)
    else (.ok "Student deleted successfully", r.1)

/-! ## Announcements -/

/-- A stored announcement document (`db.announcements`), the
`Announcement` model; `target_role = none` is a broadcast. -/
structure AnnouncementDoc where
  id : String
  title : String
  content : String
  author : String
  target_role : Option String
  created_at : Int
deriving DecidableEq, Repr

/-- Insert into a list kept in descending `created_at` order. -/
def insertDesc (a : AnnouncementDoc) :
    List AnnouncementDoc → List AnnouncementDoc
  | [] => [a]
  | b :: bs =>
    if b.created_at < a.created_at then a :: b :: bs
    else b :: insertDesc a bs

/-- Mongo `.sort("created_at", -1)`: the matching documents in
descending `created_at` order (insertion sort). -/
def sortDesc (l : List AnnouncementDoc) : List AnnouncementDoc :=
  l.foldr insertDesc []

/-- The `query` dict built by `get_announcements`: non-admin callers
match only `target_role in {None, caller.role}`; admins match all. -/
def announcementMatches (role : String) (a : AnnouncementDoc) : Bool :=
  role == "admin" || a.target_role == none || a.target_role == some role

/-- `GET /announcements` (`get_announcements`, server.py
lines 332-345): filter by the role query, sort newest first,
`to_list(100)`. -/
def get_announcements (current_user : UserDoc)
    (announcements : List AnnouncementDoc) : List AnnouncementDoc :=
  (sortDesc (announcements.filter
    (announcementMatches current_user.role))).take 100

/-! ## Attendance, grades and the dashboard aggregator -/

/-- A stored attendance document (`db.attendance`), the `Attendance`
model. -/
structure AttendanceDoc where
  id : String
  student_id : String
  student_name : String
  date : String
  status : String
  subject : Option String
  marked_by : String
  created_at : Int
deriving DecidableEq, Repr

/-- A stored grade document (`db.grades`), the `Grade` model (marks as
integers; no claim depends on their arithmetic). -/
structure GradeDoc where
  id : String
  student_id : String
  student_name : String
  subject : String
  exam_type : String
  marks : Int
  max_marks : Int
  date : String
  teacher_id : String
  created_at : Int
deriving DecidableEq, Repr

/-- The whole database, one field per collection used by the
dashboard. -/
structure Db where
  users : List UserDoc
  students : List StudentDoc
  attendance : List AttendanceDoc
  grades : List GradeDoc
  announcements : List AnnouncementDoc
deriving DecidableEq, Repr

/-- `GET /dashboard/stats` (`get_dashboard_stats`, server.py
lines 348-384), as the ordered list of `stats` entries the handler
writes.  `today` is `datetime.now(timezone.utc).strftime("%Y-%m-%d")`.
A role outside the four (unreachable for stored users) leaves `stats`
empty. -/
def get_dashboard_stats (current_user : UserDoc) (today : String)
    (db : Db) : List (String × Nat) :=
  if current_user.role == "admin" then
    [("total_students", db.students.length),
     ("total_teachers", db.users.countP (fun u => u.role == "teacher")),
     ("total_parents", db.users.countP (fun u => u.role == "parent")),
     ("total_announcements", db.announcements.length),
     ("today_present", db.attendance.countP
        (fun a => a.date == today && a.status == "present")),
     ("today_absent", db.attendance.countP
        (fun a => a.date == today && a.status == "absent"))]
  else if current_user.role == "teacher" then
    [("total_students", db.students.length),
     ("classes_today", 5),
     ("pending_grades", 12)]
  else if current_user.role == "student" then
    match db.students.find? (fun s => s.user_id == current_user.id) with
    | none => []
    | some student =>
      [("total_attendance", db.attendance.countP
          (fun a => a.student_id == student.id)),
       ("present_days", db.attendance.countP
          (fun a => a.student_id == student.id && a.status == "present")),
       ("total_grades", db.grades.countP
          (fun g => g.student_id == student.id))]
  else if current_user.role == "parent" then
    [("children_count", db.students.countP
        (fun s => s.parent_id == some current_user.id)),
     ("announcements_count", db.announcements.countP
        (fun a => a.target_role == none || a.target_role == some "parent")),
     ("events_count", 3)]
  else []

/-! ## Sample data (used by the concrete-instance corollaries) -/

/-- A stand-in for the bcrypt hash function in concrete instances. -/
def sampleHash (s : String) : String := String.append s "#"

/-- A stored admin user. -/
def sampleAdmin : UserDoc :=
  ⟨"u-admin", "alice", "admin", "Alice A", none, 0, sampleHash "pw"⟩

/-- A stored teacher user. -/
def sampleTeacher : UserDoc :=
  ⟨"u-teach", "tina", "teacher", "Tina T", none, 0, sampleHash "pw"⟩

/-- A stored parent user. -/
def sampleParent : UserDoc :=
  ⟨"u-par", "pat", "parent", "Pat P", none, 0, sampleHash "pw"⟩

/-- A stored student-role user. -/
def sampleStudentUser : UserDoc :=
  ⟨"u-stud", "sam", "student", "Sam S", none, 0, sampleHash "pw"⟩

/-- A stored student record. -/
def sampleStudent1 : StudentDoc :=
  ⟨"s1", "u-teach", "Sam S", "R1", "5A", "A", none, none, none, none, 10⟩

/-- A student input payload. -/
def sampleInput : StudentCreate :=
  ⟨"Sam S", "R1", "5A", "A", none, none, none, none⟩

/-- A second student input payload, all eight fields different. -/
def sampleInput2 : StudentCreate :=
  ⟨"Sam T", "R2", "6B", "B", some "u-par", some "2014-01-01",
   some "1 Main St", some "555"⟩

/-- A registration request. -/
def sampleReg1 : UserCreate := ⟨"alice", "pw1", "admin", "Alice A", none⟩

/-- A second registration request with the same username. -/
def sampleReg2 : UserCreate := ⟨"alice", "pw2", "teacher", "Alya", none⟩

/-- An announcement targeted at teachers. -/
def sampleAnnT : AnnouncementDoc :=
  ⟨"a1", "Staff only", "c1", "Alice A", some "teacher", 30⟩

/-- A broadcast announcement. -/
def sampleAnnN : AnnouncementDoc :=
  ⟨"a2", "Hello all", "c2", "Alice A", none, 20⟩

/-- An announcement targeted at parents. -/
def sampleAnnP : AnnouncementDoc :=
  ⟨"a3", "PTA", "c3", "Alice A", some "parent", 10⟩

/-! ## C1: duplicate-username registration -/

/-- C1: if a first `register` call succeeded, a second `register` call
whose username equals the first one's fails with 400
"Username already exists" and leaves the users collection exactly as it
was after the first call (so the first user's document is untouched and
nothing is inserted). -/
theorem register_duplicate_username_conflict
    (hash1 hash2 : String → String) (g1 g2 : String) (n1 n2 : Int)
    (users : List UserDoc) (u1 u2 : UserCreate) (d : User)
    (l1 : List UserDoc)
    (hfirst : register hash1 g1 n1 users u1 = (.ok d, l1))
    (hname : u2.username = u1.username) :
    register hash2 g2 n2 l1 u2
      = (.error ⟨400, "Username already exists"⟩, l1) := by
  unfold register at hfirst ⊢
  cases hfind : users.find? (fun x => x.username == u1.username) with
  | some u0 =>
    rw [hfind] at hfirst
    simp at hfirst
  | none =>
    rw [hfind] at hfirst
    simp only [Prod.mk.injEq] at hfirst
    obtain ⟨-, hl⟩ := hfirst
    subst hl
    rw [hname, List.find?_append, hfind]
    simp

/-- Concrete instance of `register_duplicate_username_conflict`. -/
theorem register_duplicate_username_conflict_witness :
    register sampleHash "u2" 1 [⟨"u1", "alice", "admin", "Alice A", none, 0,
        sampleHash "pw1"⟩] sampleReg2
      = (.error ⟨400, "Username already exists"⟩,
         [⟨"u1", "alice", "admin", "Alice A", none, 0, sampleHash "pw1"⟩]) :=
  register_duplicate_username_conflict sampleHash sampleHash "u1" "u2" 0 1
    [] sampleReg1 sampleReg2
    (UserDoc.toUser ⟨"u1", "alice", "admin", "Alice A", none, 0,
      sampleHash "pw1"⟩)
    [⟨"u1", "alice", "admin", "Alice A", none, 0, sampleHash "pw1"⟩]
    rfl rfl

/-! ## C2: uniform login failure -/

/-- When `loginFailCond` holds — unknown username, or known username
with a non-verifying password — `login` returns exactly the 401
"Invalid username or password" error. -/
theorem login_error_of_failCond (verifyPassword : String → String → Bool)
    (now : Int) (users : List UserDoc) (login_data : UserLogin)
    (h : loginFailCond verifyPassword users login_data = true) :
    login verifyPassword now users login_data
      = .error ⟨401, "Invalid username or password"⟩ := by
  unfold loginFailCond at h
  unfold login
  cases hfind : users.find? (fun u => u.username == login_data.username) with
  | none => rfl
  | some user =>
    rw [hfind] at h
    simp only [Bool.not_eq_true'] at h
    simp [h]

/-- C2: any two failing login attempts — whether the username is
unknown, or known with a wrong password — produce the identical
observable error, the 401 "Invalid username or password"; the response
does not reveal whether the username exists. -/
theorem login_uniform_failure (verifyPassword : String → String → Bool)
    (now1 now2 : Int) (users : List UserDoc) (l1 l2 : UserLogin)
    (h1 : loginFailCond verifyPassword users l1 = true)
    (h2 : loginFailCond verifyPassword users l2 = true) :
    login verifyPassword now1 users l1
        = .error ⟨401, "Invalid username or password"⟩ ∧
    login verifyPassword now1 users l1 = login verifyPassword now2 users l2 :=
  ⟨login_error_of_failCond verifyPassword now1 users l1 h1,
   (login_error_of_failCond verifyPassword now1 users l1 h1).trans
     (login_error_of_failCond verifyPassword now2 users l2 h2).symm⟩

/-- Concrete instance of `login_uniform_failure`: an unknown username
and a known username with a wrong password yield the same error. -/
theorem login_uniform_failure_witness :
    login (fun p h => sampleHash p == h) 5 [sampleAdmin] ⟨"bob", "pw"⟩
        = .error ⟨401, "Invalid username or password"⟩ ∧
    login (fun p h => sampleHash p == h) 5 [sampleAdmin] ⟨"bob", "pw"⟩
        = login (fun p h => sampleHash p == h) 7 [sampleAdmin]
            ⟨"alice", "wrong"⟩ :=
  login_uniform_failure (fun p h => sampleHash p == h) 5 7 [sampleAdmin]
    ⟨"bob", "pw"⟩ ⟨"alice", "wrong"⟩ (by decide) (by decide)

/-! ## C3: expired vs invalid tokens (code bug) -/

/-- C3 (code bug): the expired half of the claim holds — a token issued
at `T = 0` and validated at 25 hours fails 401 "Token has expired",
caught by `except jwt.ExpiredSignatureError` — but a malformed or
wrongly-signed token never yields the claimed Invalid 401
"Could not validate credentials": PyJWT has no `JWTError` attribute,
so evaluating the `except jwt.JWTError:` header raises
`AttributeError` and every such request surfaces as an unhandled 500,
a result distinct from the claimed one. -/
theorem token_invalid_surfaces_500 :
    get_current_user (create_access_token "u-admin" "admin" 0) (25 * 3600)
        [sampleAdmin] = .error ⟨401, "Token has expired"⟩ ∧
    (∀ (now : Int) (users : List UserDoc),
      get_current_user Token.badToken now users
        = .error ⟨500, "Internal Server Error"⟩) ∧
    (⟨500, "Internal Server Error"⟩ : Err)
        ≠ ⟨401, "Could not validate credentials"⟩ :=
  ⟨rfl, fun _ _ => rfl, by decide⟩

/-! ## C4: token for a deleted user (code bug) -/

/-- C4 (code bug): with a well-signed, unexpired token whose subject id
matches no stored user, the code indeed never returns a (stale) user
object, but it also never emits the claimed NotFound result: the
`HTTPException(401, "User not found")` of server.py line 60 is raised
inside the `try` block, does not match
`except jwt.ExpiredSignatureError`, and evaluating the following
`except jwt.JWTError:` header raises `AttributeError` (PyJWT has no
`JWTError`) — the request surfaces as an unhandled 500. -/
theorem token_deleted_user_surfaces_500 :
    get_current_user (Token.payload (some "u-gone") "teacher" 86400) 50
        [sampleAdmin] = .error ⟨500, "Internal Server Error"⟩ ∧
    (∀ u : UserDoc,
      get_current_user (Token.payload (some "u-gone") "teacher" 86400) 50
        [sampleAdmin] ≠ .ok u) ∧
    (⟨500, "Internal Server Error"⟩ : Err) ≠ ⟨401, "User not found"⟩ :=
  ⟨rfl, fun u h => Except.noConfusion h, by decide⟩

/-! ## C5: deleting a student is admin-only -/

/-- When some element matches, `deleteFirst` reports one deletion and
removes exactly one matching element. -/
theorem deleteFirst_countP (p : StudentDoc → Bool) (l : List StudentDoc)
    (h : 0 < l.countP p) :
    (deleteFirst p l).2 = 1 ∧
    (deleteFirst p l).1.countP p = l.countP p - 1 := by
  induction l with
  | nil => simp at h
  | cons x xs ih =>
    by_cases hx : p x = true
    · simp [deleteFirst, hx, List.countP_cons]
    · have hxs : 0 < xs.countP p := by
        simpa [List.countP_cons, hx] using h
      obtain ⟨hd, hc⟩ := ih hxs
      simp only [deleteFirst, hx, if_false, Bool.false_eq_true]
      refine ⟨hd, ?_⟩
      simp [List.countP_cons, hx, hc]

/-- C5: `delete_student` is admin-only.  A caller whose role is not
admin gets 403 and the collection is untouched; an admin deleting an
existing student id (ids are unique, so exactly one document matches)
succeeds, and a subsequent `get_student` on that id fails 404. -/
theorem delete_student_admin_only (current_user : UserDoc) (sid : String)
    (students : List StudentDoc) :
    (current_user.role ≠ "admin" →
      delete_student sid current_user students
        = (.error ⟨403, "Not authorized"⟩, students)) ∧
    (current_user.role = "admin" →
      students.countP (fun s => s.id == sid) = 1 →
      (delete_student sid current_user students).1
          = .ok "Student deleted successfully" ∧
      get_student sid (delete_student sid current_user students).2
          = .error ⟨404, "Student not found"⟩) := by
  constructor
  · intro hne
    simp [delete_student, hne]
  · intro hadm hcnt
    have h0 : 0 < students.countP (fun s => s.id == sid) := by
      rw [hcnt]; exact Nat.one_pos
    obtain ⟨hd, hc⟩ := deleteFirst_countP (fun s => s.id == sid) students h0
    have hzero :
        (deleteFirst (fun s => s.id == sid) students).1.countP
          (fun s => s.id == sid) = 0 := by
      rw [hc, hcnt]
    have hnone :
        (deleteFirst (fun s => s.id == sid) students).1.find?
          (fun s => s.id == sid) = none :=
      List.find?_eq_none.mpr (fun x hx => by
        have := List.countP_eq_zero.mp hzero x hx
        simpa using this)
    constructor
    · simp [delete_student, hadm, hd]
    · simp [delete_student, get_student, hadm, hd, hnone]

/-- Concrete instance of `delete_student_admin_only`: a teacher is
refused with 403; an admin succeeds and the record is gone. -/
theorem delete_student_admin_only_witness :
    delete_student "s1" sampleTeacher [sampleStudent1]
        = (.error ⟨403, "Not authorized"⟩, [sampleStudent1]) ∧
    (delete_student "s1" sampleAdmin [sampleStudent1]).1
        = .ok "Student deleted successfully" ∧
    get_student "s1" (delete_student "s1" sampleAdmin [sampleStudent1]).2
        = .error ⟨404, "Student not found"⟩ :=
  ⟨(delete_student_admin_only sampleTeacher "s1" [sampleStudent1]).1
      (by decide),
   (delete_student_admin_only sampleAdmin "s1" [sampleStudent1]).2
      rfl (by decide)⟩

/-! ## C6: announcement listing -/

/-- Membership is preserved by `insertDesc`. -/
theorem mem_insertDesc (a b : AnnouncementDoc) (l : List AnnouncementDoc) :
    b ∈ insertDesc a l ↔ b = a ∨ b ∈ l := by
  induction l with
  | nil => simp [insertDesc]
  | cons c cs ih =>
    by_cases h : c.created_at < a.created_at
    · simp [insertDesc, h]
    · simp [insertDesc, h, ih]
      tauto

/-- `insertDesc` preserves length plus one. -/
theorem length_insertDesc (a : AnnouncementDoc) (l : List AnnouncementDoc) :
    (insertDesc a l).length = l.length + 1 := by
  induction l with
  | nil => rfl
  | cons c cs ih =>
    by_cases h : c.created_at < a.created_at
    · simp [insertDesc, h]
    · simp [insertDesc, h, ih]

/-- `insertDesc` preserves descending `created_at` order. -/
theorem pairwise_insertDesc (a : AnnouncementDoc) (l : List AnnouncementDoc)
    (h : l.Pairwise (fun x y => y.created_at ≤ x.created_at)) :
    (insertDesc a l).Pairwise (fun x y => y.created_at ≤ x.created_at) := by
  induction l with
  | nil => simp [insertDesc]
  | cons c cs ih =>
    rw [List.pairwise_cons] at h
    obtain ⟨hc, hcs⟩ := h
    by_cases hlt : c.created_at < a.created_at
    · rw [insertDesc, if_pos hlt, List.pairwise_cons]
      refine ⟨?_, List.pairwise_cons.mpr ⟨hc, hcs⟩⟩
      intro x hx
      rcases List.mem_cons.mp hx with hx | hx
      · exact hx ▸ le_of_lt hlt
      · exact le_trans (hc x hx) (le_of_lt hlt)
    · rw [insertDesc, if_neg hlt, List.pairwise_cons]
      refine ⟨?_, ih hcs⟩
      intro x hx
      rcases (mem_insertDesc a x cs).mp hx with hx | hx
      · exact hx ▸ le_of_not_lt hlt
      · exact hc x hx

/-- `sortDesc` returns a list in descending `created_at` order. -/
theorem pairwise_sortDesc (l : List AnnouncementDoc) :
    (sortDesc l).Pairwise (fun x y => y.created_at ≤ x.created_at) := by
  induction l with
  | nil => simp [sortDesc]
  | cons c cs ih => exact pairwise_insertDesc c _ ih

/-- `sortDesc` keeps exactly the members of its input. -/
theorem mem_sortDesc (a : AnnouncementDoc) (l : List AnnouncementDoc) :
    a ∈ sortDesc l ↔ a ∈ l := by
  induction l with
  | nil => simp [sortDesc]
  | cons c cs ih =>
    show a ∈ insertDesc c (sortDesc cs) ↔ _
    rw [mem_insertDesc, ih]
    simp [eq_comm]

/-- `sortDesc` preserves length. -/
theorem length_sortDesc (l : List AnnouncementDoc) :
    (sortDesc l).length = l.length := by
  induction l with
  | nil => rfl
  | cons c cs ih =>
    show (insertDesc c (sortDesc cs)).length = _
    rw [length_insertDesc, ih, List.length_cons]

/-- C6: `get_announcements` returns newest first and at most 100
documents; and (whenever the matching set is within the 100 cap, so
the cap drops nothing) a document is listed iff it is stored and
either the caller is an admin, or its `target_role` is unset
(broadcast) or equals the caller's role.  In particular a parent's
list excludes teacher-targeted announcements and includes broadcast
and parent-targeted ones. -/
theorem get_announcements_role_visibility (current_user : UserDoc)
    (anns : List AnnouncementDoc)
    (hsmall :
      (anns.filter (announcementMatches current_user.role)).length ≤ 100) :
    (get_announcements current_user anns).Pairwise
        (fun x y => y.created_at ≤ x.created_at) ∧
    (get_announcements current_user anns).length ≤ 100 ∧
    ∀ a, a ∈ get_announcements current_user anns ↔
      (a ∈ anns ∧ (current_user.role = "admin" ∨ a.target_role = none ∨
        a.target_role = some current_user.role)) := by
  have hlen :
      (sortDesc (anns.filter (announcementMatches current_user.role))).length
        ≤ 100 := by
    rw [length_sortDesc]; exact hsmall
  have htake :
      get_announcements current_user anns
        = sortDesc (anns.filter (announcementMatches current_user.role)) :=
    List.take_of_length_le hlen
  refine ⟨?_, ?_, ?_⟩
  · exact (pairwise_sortDesc _).sublist (List.take_sublist _ _)
  · rw [htake]; exact hlen
  · intro a
    rw [htake, mem_sortDesc, List.mem_filter]
    constructor
    · rintro ⟨hmem, hmatch⟩
      refine ⟨hmem, ?_⟩
      simpa [announcementMatches, or_assoc] using hmatch
    · rintro ⟨hmem, hcond⟩
      refine ⟨hmem, ?_⟩
      simpa [announcementMatches, or_assoc] using hcond

/-- Concrete instance of `get_announcements_role_visibility`: against a
store holding a teacher-targeted, a broadcast and a parent-targeted
announcement, a parent's list excludes the teacher-targeted one and
includes the other two. -/
theorem get_announcements_role_visibility_witness :
    (¬ (sampleAnnT ∈ get_announcements sampleParent
        [sampleAnnT, sampleAnnN, sampleAnnP])) ∧
    sampleAnnN ∈ get_announcements sampleParent
        [sampleAnnT, sampleAnnN, sampleAnnP] ∧
    sampleAnnP ∈ get_announcements sampleParent
        [sampleAnnT, sampleAnnN, sampleAnnP] := by
  have h := get_announcements_role_visibility sampleParent
    [sampleAnnT, sampleAnnN, sampleAnnP] (by decide)
  refine ⟨fun hmem => ?_, ?_, ?_⟩
  · have := (h.2.2 sampleAnnT).mp hmem
    revert this
    decide
  · exact (h.2.2 sampleAnnN).mpr (by decide)
  · exact (h.2.2 sampleAnnP).mpr (by decide)

/-! ## C7: create/get round-trip for students -/

/-- C7: an admin or teacher creating a student with input fields `F`
gets back a record carrying all eight fields of `F` unchanged plus the
generated id and `created_at`; a `get_student` on the returned id
(fresh, as generated ids are) returns exactly that record. -/
theorem create_student_roundtrip (student_data : StudentCreate)
    (current_user : UserDoc) (genId : String) (now : Int)
    (students : List StudentDoc)
    (hrole : current_user.role = "admin" ∨ current_user.role = "teacher")
    (hfresh : ∀ s ∈ students, s.id ≠ genId) :
    ∃ st : StudentDoc,
      (create_student student_data current_user genId now students).1
          = .ok st ∧
      st.id = genId ∧ st.created_at = now ∧
      st.full_name = student_data.full_name ∧
      st.roll_number = student_data.roll_number ∧
      st.class_name = student_data.class_name ∧
      st.«section» = student_data.«section» ∧
      st.parent_id = student_data.parent_id ∧
      st.date_of_birth = student_data.date_of_birth ∧
      st.address = student_data.address ∧
      st.phone = student_data.phone ∧
      get_student st.id
          (create_student student_data current_user genId now students).2
        = .ok st := by
  have hcond :
      (current_user.role == "admin" || current_user.role == "teacher")
        = true := by
    rcases hrole with h | h <;> simp [h]
  refine ⟨{ id := genId, user_id := current_user.id,
            full_name := student_data.full_name,
            roll_number := student_data.roll_number,
            class_name := student_data.class_name,
            «section» := student_data.«section»,
            parent_id := student_data.parent_id,
            date_of_birth := student_data.date_of_birth,
            address := student_data.address, phone := student_data.phone,
            created_at := now },
          ?_, rfl, rfl, rfl, rfl, rfl, rfl, rfl, rfl, rfl, rfl, ?_⟩
  · simp [create_student, hcond]
  · have hnone : students.find? (fun s => s.id == genId) = none :=
      List.find?_eq_none.mpr (fun x hx => by simp [hfresh x hx])
    simp [create_student, hcond, get_student, List.find?_append, hnone]

/-- Concrete instance of `create_student_roundtrip`: a teacher creates
a student from `sampleInput2` into an empty collection. -/
theorem create_student_roundtrip_witness :
    ∃ st : StudentDoc,
      (create_student sampleInput2 sampleTeacher "s9" 42 []).1 = .ok st ∧
      st.id = "s9" ∧ st.created_at = 42 ∧
      st.full_name = sampleInput2.full_name ∧
      st.roll_number = sampleInput2.roll_number ∧
      st.class_name = sampleInput2.class_name ∧
      st.«section» = sampleInput2.«section» ∧
      st.parent_id = sampleInput2.parent_id ∧
      st.date_of_birth = sampleInput2.date_of_birth ∧
      st.address = sampleInput2.address ∧
      st.phone = sampleInput2.phone ∧
      get_student st.id (create_student sampleInput2 sampleTeacher "s9" 42 []).2
        = .ok st :=
  create_student_roundtrip sampleInput2 sampleTeacher "s9" 42 []
    (Or.inr rfl) (by simp)

/-! ## C8: student dashboard stats -/

/-- C8: for a student-role caller, `get_dashboard_stats` never errors:
it returns the empty stats object when no student record matches the
caller's user id, and exactly the attendance count, present-day count
and grade count of the matching student record otherwise. -/
theorem dashboard_student_stats (current_user : UserDoc) (today : String)
    (db : Db) (hrole : current_user.role = "student") :
    (db.students.find? (fun s => s.user_id == current_user.id) = none →
      get_dashboard_stats current_user today db = []) ∧
    (∀ st, db.students.find? (fun s => s.user_id == current_user.id)
        = some st →
      get_dashboard_stats current_user today db =
        [("total_attendance", db.attendance.countP
            (fun a => a.student_id == st.id)),
         ("present_days", db.attendance.countP
            (fun a => a.student_id == st.id && a.status == "present")),
         ("total_grades", db.grades.countP
            (fun g => g.student_id == st.id))]) := by
  constructor
  · intro hnone
    simp [get_dashboard_stats, hrole, hnone]
  · intro st hsome
    simp [get_dashboard_stats, hrole, hsome]

/-- Concrete instance of `dashboard_student_stats`: with no matching
student record the stats object is empty; with a matching record the
three counters are returned. -/
theorem dashboard_student_stats_witness :
    get_dashboard_stats sampleStudentUser "2026-10-12"
        ⟨[sampleStudentUser], [], [], [], []⟩ = [] ∧
    get_dashboard_stats sampleStudentUser "2026-10-12"
        ⟨[sampleStudentUser],
         [{ sampleStudent1 with user_id := "u-stud" }], [], [], []⟩
      = [("total_attendance", 0), ("present_days", 0),
         ("total_grades", 0)] :=
  ⟨(dashboard_student_stats sampleStudentUser "2026-10-12"
      ⟨[sampleStudentUser], [], [], [], []⟩ rfl).1 (by decide),
   (dashboard_student_stats sampleStudentUser "2026-10-12"
      ⟨[sampleStudentUser],
       [{ sampleStudent1 with user_id := "u-stud" }], [], [], []⟩ rfl).2
     { sampleStudent1 with user_id := "u-stud" } (by decide)⟩

/-! ## C9: `user_id` provenance and the dashboard lookup -/

/-- C9: a successful `create_student` stores `user_id` equal to the id
of the authenticated actor (the admin or teacher who called it) — the
input payload has no user field at all — and `get_dashboard_stats`
matches student records on that same `user_id` field: a student-role
caller whose id equals the actor's id (and matched nothing before) now
gets the created record's counters. -/
theorem create_student_user_id_actor (student_data : StudentCreate)
    (current_user caller : UserDoc) (genId : String) (now : Int)
    (db : Db) (today : String)
    (hrole : current_user.role = "admin" ∨ current_user.role = "teacher")
    (hnone : ∀ s ∈ db.students, s.user_id ≠ current_user.id)
    (hcaller : caller.role = "student") (hid : caller.id = current_user.id) :
    ∃ st : StudentDoc,
      (create_student student_data current_user genId now db.students).1
          = .ok st ∧
      st.user_id = current_user.id ∧
      st ∈ (create_student student_data current_user genId now
              db.students).2 ∧
      get_dashboard_stats caller today
          { db with students :=
              (create_student student_data current_user genId now
                db.students).2 }
        = [("total_attendance", db.attendance.countP
              (fun a => a.student_id == st.id)),
           ("present_days", db.attendance.countP
              (fun a => a.student_id == st.id && a.status == "present")),
           ("total_grades", db.grades.countP
              (fun g => g.student_id == st.id))] := by
  have hcond :
      (current_user.role == "admin" || current_user.role == "teacher")
        = true := by
    rcases hrole with h | h <;> simp [h]
  refine ⟨{ id := genId, user_id := current_user.id,
            full_name := student_data.full_name,
            roll_number := student_data.roll_number,
            class_name := student_data.class_name,
            «section» := student_data.«section»,
            parent_id := student_data.parent_id,
            date_of_birth := student_data.date_of_birth,
            address := student_data.address, phone := student_data.phone,
            created_at := now },
          ?_, rfl, ?_, ?_⟩
  · simp [create_student, hcond]
  · simp [create_student, hcond]
  · have hfnone :
        db.students.find? (fun s => s.user_id == current_user.id) = none :=
      List.find?_eq_none.mpr (fun x hx => by
        simp [hnone x hx])
    simp [create_student, hcond, get_dashboard_stats, hcaller,
      List.find?_append, hid, hfnone]

/-- Concrete instance of `create_student_user_id_actor`: a teacher
creates a student; the stored record carries the teacher's user id and
the dashboard of a student-role user with that id finds it. -/
theorem create_student_user_id_actor_witness :
    ∃ st : StudentDoc,
      (create_student sampleInput sampleTeacher "s7" 9 []).1 = .ok st ∧
      st.user_id = sampleTeacher.id ∧
      st ∈ (create_student sampleInput sampleTeacher "s7" 9 []).2 ∧
      get_dashboard_stats { sampleStudentUser with id := "u-teach" } "d"
          { users := [], students :=
              (create_student sampleInput sampleTeacher "s7" 9 []).2,
            attendance := [], grades := [], announcements := [] }
        = [("total_attendance", 0), ("present_days", 0),
           ("total_grades", 0)] :=
  create_student_user_id_actor sampleInput sampleTeacher
    { sampleStudentUser with id := "u-teach" } "s7" 9
    ⟨[], [], [], [], []⟩ "d" (Or.inr rfl) (by simp) rfl rfl

/-! ## C10: update frame condition -/

/-- `updateFirst` rewrites exactly the first matching element: the
prefix of non-matching elements and the suffix are returned
untouched. -/
theorem updateFirst_split (p : StudentDoc → Bool)
    (f : StudentDoc → StudentDoc) (l : List StudentDoc) (a : StudentDoc)
    (h : l.find? p = some a) :
    ∃ l₁ l₂, l = l₁ ++ a :: l₂ ∧ (∀ x ∈ l₁, p x = false) ∧
      updateFirst p f l = l₁ ++ f a :: l₂ := by
  induction l with
  | nil => simp at h
  | cons x xs ih =>
    by_cases hx : p x = true
    · rw [List.find?_cons_of_pos _ hx, Option.some.injEq] at h
      subst h
      exact ⟨[], xs, rfl, by simp, by simp [updateFirst, hx]⟩
    · rw [List.find?_cons_of_neg _ hx] at h
      obtain ⟨l₁, l₂, hsplit, hpre, hupd⟩ := ih h
      exact ⟨x :: l₁, l₂, by rw [List.cons_append, hsplit],
        by simpa [Bool.not_eq_true] using
          fun y hy => List.mem_cons.mp hy |>.elim
            (fun he => he ▸ (Bool.not_eq_true (p x)).mp hx)
            (fun hm => hpre y hm),
        by simp [updateFirst, hx, hupd]⟩

/-- C10: a successful `update_student` overwrites exactly the eight
`StudentCreate` fields of the (unique first) matching record: its `id`,
`user_id` and `created_at` are unchanged, and every other record of
the collection is untouched. -/
theorem update_student_frame (student_id : String)
    (student_data : StudentCreate) (current_user : UserDoc)
    (students : List StudentDoc) (old : StudentDoc)
    (hrole : current_user.role = "admin" ∨ current_user.role = "teacher")
    (hfind : students.find? (fun s => s.id == student_id) = some old) :
    ∃ l₁ l₂,
      students = l₁ ++ old :: l₂ ∧
      (update_student student_id student_data current_user students).2
        = l₁ ++ setStudentFields student_data old :: l₂ ∧
      (setStudentFields student_data old).id = old.id ∧
      (setStudentFields student_data old).user_id = old.user_id ∧
      (setStudentFields student_data old).created_at = old.created_at ∧
      (setStudentFields student_data old).full_name
          = student_data.full_name ∧
      (setStudentFields student_data old).roll_number
          = student_data.roll_number ∧
      (setStudentFields student_data old).class_name
          = student_data.class_name ∧
      (setStudentFields student_data old).«section»
          = student_data.«section» ∧
      (setStudentFields student_data old).parent_id
          = student_data.parent_id ∧
      (setStudentFields student_data old).date_of_birth
          = student_data.date_of_birth ∧
      (setStudentFields student_data old).address = student_data.address ∧
      (setStudentFields student_data old).phone = student_data.phone := by
  have hcond :
      (current_user.role == "admin" || current_user.role == "teacher")
        = true := by
    rcases hrole with h | h <;> simp [h]
  obtain ⟨l₁, l₂, hsplit, hpre, hupd⟩ :=
    updateFirst_split (fun s => s.id == student_id)
      (setStudentFields student_data) students old hfind
  refine ⟨l₁, l₂, hsplit, ?_, rfl, rfl, rfl, rfl, rfl, rfl, rfl, rfl,
    rfl, rfl, rfl⟩
  have hstate :
      (update_student student_id student_data current_user students).2
        = updateFirst (fun s => s.id == student_id)
            (setStudentFields student_data) students := by
    rw [update_student, if_pos hcond, hfind]
    cases hf2 : (updateFirst (fun s => s.id == student_id)
        (setStudentFields student_data) students).find?
        (fun s => s.id == student_id) <;> simp [hf2]
  rw [hstate, hupd]

/-- Concrete instance of `update_student_frame`: updating `s1` with
`sampleInput2` keeps the record's `id`, `user_id` and `created_at` and
replaces its eight input fields. -/
theorem update_student_frame_witness :
    ∃ l₁ l₂,
      [sampleStudent1] = l₁ ++ sampleStudent1 :: l₂ ∧
      (update_student "s1" sampleInput2 sampleAdmin [sampleStudent1]).2
        = l₁ ++ setStudentFields sampleInput2 sampleStudent1 :: l₂ ∧
      (setStudentFields sampleInput2 sampleStudent1).id
          = sampleStudent1.id ∧
      (setStudentFields sampleInput2 sampleStudent1).user_id
          = sampleStudent1.user_id ∧
      (setStudentFields sampleInput2 sampleStudent1).created_at
          = sampleStudent1.created_at ∧
      (setStudentFields sampleInput2 sampleStudent1).full_name
          = sampleInput2.full_name ∧
      (setStudentFields sampleInput2 sampleStudent1).roll_number
          = sampleInput2.roll_number ∧
      (setStudentFields sampleInput2 sampleStudent1).class_name
          = sampleInput2.class_name ∧
      (setStudentFields sampleInput2 sampleStudent1).«section»
          = sampleInput2.«section» ∧
      (setStudentFields sampleInput2 sampleStudent1).parent_id
          = sampleInput2.parent_id ∧
      (setStudentFields sampleInput2 sampleStudent1).date_of_birth
          = sampleInput2.date_of_birth ∧
      (setStudentFields sampleInput2 sampleStudent1).address
          = sampleInput2.address ∧
      (setStudentFields sampleInput2 sampleStudent1).phone
          = sampleInput2.phone :=
  update_student_frame "s1" sampleInput2 sampleAdmin [sampleStudent1]
    sampleStudent1 (Or.inl rfl) (by decide)

end School
